import Mathlib

/-!
Shallow embedding of `apps/backend/runners/ai_analyzer/claude_client.py`
(class `ClaudeAnalysisClient`), together with theorems settling the spec
claims about it.

Modelling conventions:
- Python strings are Lean `String`s; Python string truthiness (`if self.language`)
  is `language ≠ ""`.
- The filesystem is a map from path strings to JSON values (`FS`); the settings
  file content is modelled structurally (the JSON value that `json.dump`
  serialises), since the claims are about its schema, not its byte formatting.
- Python exceptions are an explicit error type `PyErr`; fallible steps return
  `Except PyErr α`, and `try/finally` becomes explicit sequencing of the body
  result with the cleanup step.
- The external agent SDK (client construction, `client.query`, the response
  stream) is opaque: its outcomes are parameters (`ExtBehavior`), quantified
  over in the theorems, so every control-flow path of the wrapper is covered.
-/

namespace ClaudeAnalysisClient

/-- A Python exception value (only the shape matters for the claims). -/
inductive PyErr where
  | runtimeError (msg : String)
  | valueError (msg : String)
  | fileNotFoundError (path : String)
  | other (msg : String)
deriving DecidableEq, Repr

/-- A JSON value, as produced by `json.dump`; objects keep field order. -/
inductive JValue where
  | bool (b : Bool)
  | str (s : String)
  | arr (items : List JValue)
  | obj (fields : List (String × JValue))

/-- Field lookup in a JSON object (`d[k]` on a dict), `none` otherwise. -/
def jGet : JValue → String → Option JValue
  | .obj fields, k => fields.lookup k
  | _, _ => none

/-- The filesystem: a map from paths to the JSON contents of existing files. -/
def FS := String → Option JValue

/-- `open(p, "w")` + write: overwrites the file at `p` with content `v`. -/
def fsWrite (p : String) (v : JValue) (fs : FS) : FS :=
  fun q => if q = p then some v else fs q

/-- `Path.exists()`. -/
def fsExists (p : String) (fs : FS) : Bool :=
  (fs p).isSome

/-- Removal of the entry at `p` from the map. -/
def fsErase (p : String) (fs : FS) : FS :=
  fun q => if q = p then none else fs q

/-- `Path.unlink()`: removes the file, raising `FileNotFoundError` if absent. -/
def fsUnlink (p : String) (fs : FS) : Except PyErr FS :=
  if fsExists p fs then .ok (fsErase p fs) else .error (.fileNotFoundError p)

/-- `type(content)` has a `text` attribute iff the `text` field is `some`.
Mirrors `hasattr(content, "text")` / `content.text`. -/
structure ContentItem where
  text : Option String
deriving DecidableEq, Repr

/-- A streamed message: `type(msg).__name__` and `msg.content`. -/
structure Msg where
  msgType : String
  content : List ContentItem
deriving DecidableEq, Repr

/-- Inner loop of `_collect_response`:
`if hasattr(content, "text"): response_text += content.text`. -/
def contentText (acc : String) (c : ContentItem) : String :=
  match c.text with
  | some t => acc ++ t
  | none => acc

/-- Outer loop body of `_collect_response`: assistant messages contribute the
texts of their content items, all other message types contribute nothing. -/
def appendMsg (acc : String) (m : Msg) : String :=
  if m.msgType == "AssistantMessage" then m.content.foldl contentText acc
  else acc

/-- `_collect_response`, over the finite list of messages the stream yields. -/
def collectResponse (msgs : List Msg) : String :=
  msgs.foldl appendMsg ""

/-- The texts carried by the content items of one message, in order. -/
def msgTexts (m : Msg) : List String :=
  m.content.filterMap ContentItem.text

/-- Specification view: the texts of content items of assistant messages,
in arrival order. -/
def assistantTexts (msgs : List Msg) : List String :=
  (msgs.filter fun m => m.msgType == "AssistantMessage").flatMap msgTexts

/-- Concatenation of a list of strings, in order. -/
def concatTexts : List String → String
  | [] => ""
  | t :: ts => t ++ concatTexts ts

/-- `LANGUAGE_NAMES`: the fixed language code → display name mapping. -/
def LANGUAGE_NAMES : List (String × String) :=
  [("en", "English"), ("ko", "Korean"), ("fr", "French")]

/-- `self.LANGUAGE_NAMES.get(self.language, self.language)`: the display name,
falling back to the raw code when the code is not in the mapping. -/
def lookupLanguageName (lang : String) : String :=
  match LANGUAGE_NAMES.lookup lang with
  | some n => n
  | none => lang

/-- The language instruction text appended for a resolved display name. -/
def languageClause (name : String) : String :=
  "\n\n**IMPORTANT LANGUAGE REQUIREMENT**: Write all analysis descriptions, " ++
  "recommendations, and explanations in **" ++ name ++ "**. " ++
  "JSON keys must remain in English, but all human-readable content values " ++
  "must be in " ++ name ++ "."

/-- `language_instruction` as built in `_create_client`: non-empty only when
the language is truthy (non-empty string) and not `"en"`. -/
def languageInstruction (language : String) : String :=
  if language ≠ "" ∧ language ≠ "en" then
    languageClause (lookupLanguageName language)
  else ""

/-- The system prompt base (role framing, working directory, tools, JSON-only),
before the optional language instruction. -/
def basePrompt (resolvedDir : String) : String :=
  "You are a senior software architect analyzing this codebase. " ++
  "Your working directory is: " ++ resolvedDir ++ "\n" ++
  "Use Read, Grep, and Glob tools to analyze actual code. " ++
  "Output your analysis as valid JSON only."

/-- `system_prompt` as built in `_create_client` (with `resolvedDir` standing
for `str(self.project_dir.resolve())`). -/
def systemPrompt (resolvedDir language : String) : String :=
  basePrompt resolvedDir ++ languageInstruction language

/-- `p` contains `sub` as a contiguous substring. -/
def StrContains (p sub : String) : Prop :=
  ∃ s t, p = s ++ sub ++ t

/-- `DEFAULT_MODEL = "sonnet"`. -/
def DEFAULT_MODEL : String := "sonnet"

/-- `ALLOWED_TOOLS = ["Read", "Glob", "Grep"]`. -/
def ALLOWED_TOOLS : List String := ["Read", "Glob", "Grep"]

/-- `MAX_TURNS = 50`. -/
def MAX_TURNS : Nat := 50

/-- The state held by a successfully constructed `ClaudeAnalysisClient`. -/
structure ClientState where
  project_dir : String
  language : String
deriving DecidableEq, Repr

/-- `__init__` + `_validate_oauth_token`: fails with `RuntimeError` when the
SDK import failed, then runs the credential check (`require_auth_token`, whose
outcome is the parameter `authResult`), and only then yields the constructed
object. No filesystem write and no agent session occurs here: the returned
filesystem is passed through untouched, and a session can only be opened by
`run_analysis_query` on a successfully constructed `ClientState`. -/
def initClient (sdkAvailable : Bool) (authResult : Except PyErr Unit)
    (project_dir language : String) (fs : FS) :
    Except PyErr ClientState × FS :=
  if sdkAvailable = false then
    (.error (.runtimeError
      "claude-agent-sdk not available. Install with: pip install claude-agent-sdk"), fs)
  else
    match authResult with
    | .error e => (.error e, fs)
    | .ok _ => (.ok ⟨project_dir, language⟩, fs)

/-- `true` on `.error`, `false` on `.ok`: construction failed. -/
def constructionFailed : Except PyErr ClientState → Bool
  | .error _ => true
  | .ok _ => false

/-- The fixed descriptor path `self.project_dir / ".claude_ai_analyzer_settings.json"`. -/
def settingsPath (project_dir : String) : String :=
  project_dir ++ "/" ++ ".claude_ai_analyzer_settings.json"

/-- The JSON structure `settings` built in `_create_settings_file`. -/
def analyzerSettings : JValue :=
  .obj
    [("sandbox", .obj [("enabled", .bool true), ("autoAllowBashIfSandboxed", .bool true)]),
     ("permissions", .obj
       [("defaultMode", .str "acceptEdits"),
        ("allow", .arr [.str "Read(./**)", .str "Glob(./**)", .str "Grep(./**)"])])]

/-- `_create_settings_file`: writes (overwriting) the settings JSON at the
fixed path and returns that path. -/
def createSettingsFile (c : ClientState) (fs : FS) : String × FS :=
  let p := settingsPath c.project_dir
  (p, fsWrite p analyzerSettings fs)

/-- The configuration bundle `ClaudeAgentOptions(...)` handed to
`ClaudeSDKClient`. -/
structure ClaudeAgentOptions where
  model : String
  system_prompt : String
  allowed_tools : List String
  max_turns : Nat
  cwd : String
  settings : String
deriving DecidableEq, Repr

/-- `_create_client`, up to the external collaborators: `resolve_model_id`
maps the model shorthand to a concrete identifier, and `resolvePath` stands
for `Path.resolve()` (absolute-path resolution). Returns the options bundle
the SDK client is constructed with. -/
def createClientOptions (resolve_model_id : String → String)
    (resolvePath : String → String) (c : ClientState)
    (settings_file : String) : ClaudeAgentOptions :=
  { model := resolve_model_id DEFAULT_MODEL
    system_prompt := systemPrompt (resolvePath c.project_dir) c.language
    allowed_tools := ALLOWED_TOOLS
    max_turns := MAX_TURNS
    cwd := resolvePath c.project_dir
    settings := resolvePath settings_file }

/-- Outcomes of the opaque external steps of one `run_analysis_query` call:
client construction (including session open), `client.query(prompt)`, and the
response stream (either the full finite message list, or a mid-stream error).
`midSession` is whatever the external world does to the filesystem between the
descriptor write and the `finally` block (identity when nothing external
interferes). -/
structure ExtBehavior where
  clientResult : Except PyErr Unit
  queryResult : Except PyErr Unit
  streamResult : Except PyErr (List Msg)
  midSession : FS → FS

/-- The `try` body of `run_analysis_query`: each step propagates the first
error; a clean stream yields the collected text. -/
def queryBody (ext : ExtBehavior) : Except PyErr String :=
  match ext.clientResult with
  | .error e => .error e
  | .ok _ =>
    match ext.queryResult with
    | .error e => .error e
    | .ok _ =>
      match ext.streamResult with
      | .error e => .error e
      | .ok msgs => .ok (collectResponse msgs)

/-- The `finally` block: `if settings_file.exists(): settings_file.unlink()`. -/
def cleanupSettings (p : String) (fs : FS) : Except PyErr FS :=
  if fsExists p fs then fsUnlink p fs else .ok fs

/-- `run_analysis_query`: writes the descriptor, runs the body, and runs the
cleanup unconditionally; a cleanup exception (were one possible) would replace
the in-flight result, as a Python `finally` does. -/
def runAnalysisQuery (c : ClientState) (ext : ExtBehavior) (fs : FS) :
    Except PyErr String × FS :=
  let pfs := createSettingsFile c fs
  let body := queryBody ext
  let fs2 := ext.midSession pfs.2
  match cleanupSettings pfs.1 fs2 with
  | .ok fs3 => (body, fs3)
  | .error e => (.error e, fs2)

/-! ### Helper lemmas -/

theorem foldl_contentText (l : List ContentItem) (acc : String) :
    l.foldl contentText acc = acc ++ concatTexts (l.filterMap ContentItem.text) := by
  induction l generalizing acc with
  | nil => simp [concatTexts]
  | cons c cs ih =>
    cases h : c.text with
    | none => simp [contentText, h, ih]
    | some t => simp [contentText, h, ih, concatTexts, String.append_assoc]

theorem concatTexts_append (xs ys : List String) :
    concatTexts (xs ++ ys) = concatTexts xs ++ concatTexts ys := by
  induction xs with
  | nil => simp [concatTexts]
  | cons t ts ih => simp [concatTexts, ih, String.append_assoc]

theorem foldl_appendMsg (msgs : List Msg) (acc : String) :
    msgs.foldl appendMsg acc = acc ++ concatTexts (assistantTexts msgs) := by
  induction msgs generalizing acc with
  | nil => simp [assistantTexts, concatTexts]
  | cons m ms ih =>
    cases h : m.msgType == "AssistantMessage" with
    | false =>
      simp [appendMsg, h, ih, assistantTexts, List.filter_cons, msgTexts]
    | true =>
      simp only [List.foldl_cons, appendMsg, h, if_true, ih, foldl_contentText,
        assistantTexts, List.filter_cons, List.flatMap_cons, msgTexts,
        concatTexts_append, String.append_assoc]

theorem cleanupSettings_removes (p : String) (fs : FS) :
    ∃ fs', cleanupSettings p fs = .ok fs' ∧ fsExists p fs' = false := by
  cases h : fsExists p fs with
  | false => exact ⟨fs, by simp [cleanupSettings, h], h⟩
  | true =>
    refine ⟨fsErase p fs, ?_, ?_⟩
    · simp [cleanupSettings, h, fsUnlink]
    · simp [fsExists, fsErase]

theorem runAnalysisQuery_fst (c : ClientState) (ext : ExtBehavior) (fs : FS) :
    (runAnalysisQuery c ext fs).1 = queryBody ext := by
  unfold runAnalysisQuery
  obtain ⟨fs', h1, -⟩ :=
    cleanupSettings_removes (settingsPath c.project_dir)
      (ext.midSession (createSettingsFile c fs).2)
  simp only [createSettingsFile] at h1 ⊢
  rw [h1]

/-! ### Claim theorems -/

/-- C3: for every finite stream, `_collect_response` returns the concatenation,
in arrival order, of the `text` attributes of content items of
`AssistantMessage`s; other message types and text-less content items contribute
nothing. In particular assistant texts "A", "B" yield "AB". -/
theorem collectResponse_assistant_concat (msgs : List Msg) :
    collectResponse msgs = concatTexts (assistantTexts msgs) ∧
    collectResponse
      [⟨"AssistantMessage", [⟨some "A"⟩]⟩, ⟨"AssistantMessage", [⟨some "B"⟩]⟩]
      = "AB" := by
  refine ⟨?_, rfl⟩
  rw [collectResponse, foldl_appendMsg, String.empty_append]

set_option maxRecDepth 4096 in
/-- C4 counterexample: the empty string is a language code different from the
default "en", yet the system prompt built for it is exactly the base prompt
and contains no language-requirement clause (the truthiness guard removes the
clause for the empty code). -/
theorem systemPrompt_empty_code_no_clause :
    ("" : String) ≠ "en" ∧
    systemPrompt "/repo" "" = basePrompt "/repo" ∧
    ¬ StrContains (systemPrompt "/repo" "") (languageClause (lookupLanguageName "")) := by
  refine ⟨by decide, rfl, ?_⟩
  rintro ⟨s, t, h⟩
  have hl := congrArg String.length h
  have h1 : (systemPrompt "/repo" "").length = 189 := by decide
  have h2 : (languageClause (lookupLanguageName "")).length = 198 := by decide
  rw [h1, String.length_append, String.length_append, h2] at hl
  omega

/-- C4 (amended): for every nonempty language code other than "en", the system
prompt is the base prompt followed by the language-requirement clause naming
the resolved display name (hence contains that clause); for the default code
"en" the prompt is exactly the base prompt, which appends no such clause. -/
theorem systemPrompt_language_requirement (d lang : String) :
    (lang ≠ "" → lang ≠ "en" →
      systemPrompt d lang = basePrompt d ++ languageClause (lookupLanguageName lang) ∧
      StrContains (systemPrompt d lang) (languageClause (lookupLanguageName lang))) ∧
    systemPrompt d "en" = basePrompt d := by
  constructor
  · intro h1 h2
    have he : languageInstruction lang = languageClause (lookupLanguageName lang) := by
      simp [languageInstruction, h1, h2]
    refine ⟨by rw [systemPrompt, he], ⟨basePrompt d, "", ?_⟩⟩
    rw [systemPrompt, he, String.append_empty]
  · simp [systemPrompt, languageInstruction]

/-- C4 witness: at the concrete code "ko" the hypotheses hold and the prompt
carries the clause naming "Korean". -/
theorem systemPrompt_language_requirement_witness :
    systemPrompt "/repo" "ko" =
      basePrompt "/repo" ++ languageClause (lookupLanguageName "ko") :=
  ((systemPrompt_language_requirement "/repo" "ko").1 (by decide) (by decide)).1

/-- C5: for every language code outside the fixed mapping (keys "en", "ko",
"fr"), the resolved display name is the raw code itself, and (when the clause
is emitted at all, i.e. the code is nonempty) the prompt names the raw code
verbatim; prompt construction is a total function, so it cannot fail.
Examples: "ko" resolves to "Korean", "xx" resolves to "xx". -/
theorem lookupLanguageName_fallback (d lang : String) :
    (lang ≠ "en" → lang ≠ "ko" → lang ≠ "fr" →
      lookupLanguageName lang = lang ∧
      (lang ≠ "" → systemPrompt d lang = basePrompt d ++ languageClause lang)) ∧
    lookupLanguageName "ko" = "Korean" ∧
    lookupLanguageName "xx" = "xx" := by
  refine ⟨?_, rfl, rfl⟩
  intro h1 h2 h3
  have e1 : (lang == "en") = false := beq_eq_false_iff_ne.mpr h1
  have e2 : (lang == "ko") = false := beq_eq_false_iff_ne.mpr h2
  have e3 : (lang == "fr") = false := beq_eq_false_iff_ne.mpr h3
  have hn : lookupLanguageName lang = lang := by
    simp [lookupLanguageName, LANGUAGE_NAMES, List.lookup, e1, e2, e3]
  refine ⟨hn, fun h0 => ?_⟩
  have he : languageInstruction lang = languageClause lang := by
    simp [languageInstruction, h0, h1, hn]
  rw [systemPrompt, he]

/-- C5 witness: at the concrete unrecognized code "xx" the hypotheses hold;
the display name is "xx" and the prompt names it verbatim. -/
theorem lookupLanguageName_fallback_witness :
    lookupLanguageName "xx" = "xx" ∧
    systemPrompt "/repo" "xx" = basePrompt "/repo" ++ languageClause "xx" := by
  have h := (lookupLanguageName_fallback "/repo" "xx").1 (by decide) (by decide) (by decide)
  exact ⟨h.1, h.2 (by decide)⟩

/-- C9: the empty language code, although different from the default "en", is
treated exactly like the default by the truthiness guard: no
language-requirement clause is appended and the prompt is the base prompt. -/
theorem systemPrompt_empty_language_like_default (d : String) :
    ("" : String) ≠ "en" ∧
    languageInstruction "" = "" ∧
    systemPrompt d "" = basePrompt d ∧
    systemPrompt d "" = systemPrompt d "en" := by
  refine ⟨by decide, rfl, ?_, ?_⟩ <;>
    simp [systemPrompt, languageInstruction]

/-- C7: `_create_settings_file` returns the fixed path
`<project_dir>/.claude_ai_analyzer_settings.json` and maps it (overwriting any
previous content, since `fs` is arbitrary) to exactly the settings JSON:
sandbox enabled, `autoAllowBashIfSandboxed` true, `defaultMode` "acceptEdits",
and an allow list of exactly `Read(./**)`, `Glob(./**)`, `Grep(./**)`. -/
theorem createSettingsFile_schema (c : ClientState) (fs : FS) :
    (createSettingsFile c fs).1 =
      c.project_dir ++ "/" ++ ".claude_ai_analyzer_settings.json" ∧
    (createSettingsFile c fs).2 (settingsPath c.project_dir) = some analyzerSettings ∧
    (jGet analyzerSettings "sandbox").bind (fun s => jGet s "enabled")
      = some (.bool true) ∧
    (jGet analyzerSettings "sandbox").bind (fun s => jGet s "autoAllowBashIfSandboxed")
      = some (.bool true) ∧
    (jGet analyzerSettings "permissions").bind (fun s => jGet s "defaultMode")
      = some (.str "acceptEdits") ∧
    (jGet analyzerSettings "permissions").bind (fun s => jGet s "allow")
      = some (.arr [.str "Read(./**)", .str "Glob(./**)", .str "Grep(./**)"]) := by
  refine ⟨rfl, ?_, rfl, rfl, rfl, rfl⟩
  simp [createSettingsFile, fsWrite]

/-- C8: the agent client is constructed with exactly the configuration bundle
stated: resolved "sonnet" model id, the built system prompt, allowed tools
`["Read", "Glob", "Grep"]`, max turns 50, the resolved project directory as
working directory, and the resolved descriptor path. -/
theorem createClientOptions_bundle (rmi rp : String → String)
    (c : ClientState) (sf : String) :
    createClientOptions rmi rp c sf =
      { model := rmi "sonnet"
        system_prompt := systemPrompt (rp c.project_dir) c.language
        allowed_tools := ["Read", "Glob", "Grep"]
        max_turns := 50
        cwd := rp c.project_dir
        settings := rp sf } ∧
    DEFAULT_MODEL = "sonnet" ∧
    ALLOWED_TOOLS = ["Read", "Glob", "Grep"] ∧
    MAX_TURNS = 50 :=
  ⟨rfl, rfl, rfl, rfl⟩

/-- C6: when the credential check raises, construction fails for every SDK
availability flag, project directory, language and filesystem: the result is
an error (when the SDK is available, the very credential error), the
filesystem is returned untouched — in particular no descriptor file is
written — and no agent session can exist, since only `runAnalysisQuery` on a
constructed `ClientState` opens one. -/
theorem initClient_auth_failure (sdkAvailable : Bool) (e : PyErr)
    (pd lang : String) (fs : FS) :
    constructionFailed (initClient sdkAvailable (.error e) pd lang fs).1 = true ∧
    (initClient sdkAvailable (.error e) pd lang fs).2 = fs ∧
    fsExists (settingsPath pd) (initClient sdkAvailable (.error e) pd lang fs).2
      = fsExists (settingsPath pd) fs ∧
    (initClient true (.error e) pd lang fs).1 = .error e := by
  cases sdkAvailable <;> simp [initClient, constructionFailed]

/-- C10: the cleanup step deletes the descriptor only if it exists at cleanup
time; when the file is already gone before the `finally` block runs, cleanup
performs no deletion (the filesystem is returned unchanged) and raises no
error of its own. -/
theorem cleanupSettings_when_absent (p : String) (fs : FS)
    (h : fsExists p fs = false) :
    cleanupSettings p fs = .ok fs := by
  simp [cleanupSettings, h]

/-- C10 witness: on the empty filesystem the descriptor is absent and cleanup
returns it unchanged without error. -/
theorem cleanupSettings_when_absent_witness :
    cleanupSettings "/repo/.claude_ai_analyzer_settings.json"
      (fun _ => none) = .ok (fun _ => none) :=
  cleanupSettings_when_absent "/repo/.claude_ai_analyzer_settings.json"
    (fun _ => none) rfl

/-- C1: for every invocation of `run_analysis_query` — over all external
outcomes, i.e. clean success, client-construction failure, query failure and
stream failure alike — the descriptor file exists in the filesystem
established before client construction (the session-open window), and does
not exist in the filesystem after the call returns or raises. -/
theorem runAnalysisQuery_descriptor_lifecycle (c : ClientState)
    (ext : ExtBehavior) (fs : FS) :
    fsExists (settingsPath c.project_dir) (createSettingsFile c fs).2 = true ∧
    fsExists (settingsPath c.project_dir) (runAnalysisQuery c ext fs).2 = false := by
  constructor
  · simp [createSettingsFile, fsWrite, fsExists]
  · unfold runAnalysisQuery
    obtain ⟨fs', h1, h2⟩ :=
      cleanupSettings_removes (settingsPath c.project_dir)
        (ext.midSession (createSettingsFile c fs).2)
    simp only [createSettingsFile] at h1 ⊢
    rw [h1]
    exact h2

/-- C2: every exception from client construction, query submission or stream
collection propagates to the caller unchanged, and the cleanup still runs (the
descriptor is absent afterwards); there is no retry and no partial result —
an `.ok` outcome happens only when the stream completed cleanly, and then the
returned text is exactly the collected stream text. -/
theorem runAnalysisQuery_error_propagation (c : ClientState)
    (ext : ExtBehavior) (fs : FS) :
    (∀ e, ext.clientResult = .error e →
      (runAnalysisQuery c ext fs).1 = .error e) ∧
    (∀ e, ext.clientResult = .ok () → ext.queryResult = .error e →
      (runAnalysisQuery c ext fs).1 = .error e) ∧
    (∀ e, ext.clientResult = .ok () → ext.queryResult = .ok () →
      ext.streamResult = .error e → (runAnalysisQuery c ext fs).1 = .error e) ∧
    (∀ s, (runAnalysisQuery c ext fs).1 = .ok s →
      ext.clientResult = .ok () ∧ ext.queryResult = .ok () ∧
      ∃ msgs, ext.streamResult = .ok msgs ∧ s = collectResponse msgs) ∧
    fsExists (settingsPath c.project_dir) (runAnalysisQuery c ext fs).2 = false := by
  refine ⟨?_, ?_, ?_, ?_, ?_⟩
  · intro e h
    rw [runAnalysisQuery_fst, queryBody, h]
  · intro e h1 h2
    rw [runAnalysisQuery_fst, queryBody, h1, h2]
  · intro e h1 h2 h3
    rw [runAnalysisQuery_fst, queryBody, h1, h2, h3]
  · intro s h
    rw [runAnalysisQuery_fst] at h
    unfold queryBody at h
    cases hc : ext.clientResult with
    | error e => rw [hc] at h; exact absurd h (by simp)
    | ok u =>
      rw [hc] at h
      cases hq : ext.queryResult with
      | error e => rw [hq] at h; exact absurd h (by simp)
      | ok v =>
        rw [hq] at h
        cases hs : ext.streamResult with
        | error e => rw [hs] at h; exact absurd h (by simp)
        | ok msgs =>
          rw [hs] at h
          cases u
          cases v
          exact ⟨rfl, rfl, msgs, rfl, by cases h; rfl⟩
  · unfold runAnalysisQuery
    obtain ⟨fs', h1, h2⟩ :=
      cleanupSettings_removes (settingsPath c.project_dir)
        (ext.midSession (createSettingsFile c fs).2)
    simp only [createSettingsFile] at h1 ⊢
    rw [h1]
    exact h2

/-- C2 witness: a concrete run whose query step raises propagates exactly that
error to the caller. -/
theorem runAnalysisQuery_error_propagation_witness :
    (runAnalysisQuery ⟨"/repo", "en"⟩
      ⟨.ok (), .error (.other "boom"), .ok [], id⟩ (fun _ => none)).1 =
      .error (.other "boom") :=
  (runAnalysisQuery_error_propagation ⟨"/repo", "en"⟩
      ⟨.ok (), .error (.other "boom"), .ok [], id⟩ (fun _ => none)).2.1
    (.other "boom") rfl rfl

end ClaudeAnalysisClient
